import Mathlib

/-
Verification development for the Yate-Config repository (src/yate-config.py).

The Python source is shallowly embedded below:
  - Python strings are lists of characters (`Str`); a text file's content is
    its list of lines (`List Str`), mirroring `for line in f`.
  - The Python dict `self.current_config` is an association list with
    insertion-order-preserving upsert (`upsertA`), exactly the observable
    behavior of `d[k] = v` on a `str`-keyed dict.
  - The filesystem is an explicit record `FS` (directories with modes, files
    with contents, file modes set by chmod); `os.makedirs`, `open(...,'w')`,
    `os.chmod`, and the `cp` invoked by `os.system` become state updates on
    `FS`.  `os.system`'s exit status is discarded by the source, so `cp` with
    a missing source is a no-op, as it is for the real command.
  - External collaborators (openssl output bytes, `datetime.now()`,
    `os.getlogin()`, `socket.gethostname()`, telemetry samples, `os.geteuid()`)
    are parameters of the embedded operations.
-/

namespace Yate

/-- Str models a Python string as a list of characters. -/
abbrev Str := List Char

/-- pyIsSpace models the ASCII whitespace characters stripped by
Python's `str.strip()`. -/
def pyIsSpace (c : Char) : Bool :=
  c == ' ' || c == '\t' || c == '\n' || c == '\r' || c == '\x0b' || c == '\x0c'

/-- stripRight models removal of trailing whitespace. -/
def stripRight (s : Str) : Str :=
  (s.reverse.dropWhile pyIsSpace).reverse

/-- strip models Python's `line.strip()`: remove leading and trailing
whitespace. -/
def strip (s : Str) : Str :=
  stripRight (s.dropWhile pyIsSpace)

/-- startsWithHash models `line.strip().startswith('#')` applied to an
already-stripped string: is the first character a hash. -/
def startsWithHash : Str → Bool
  | [] => false
  | c :: _ => decide (c = '#')

/-- containsEq models Python's `'=' in line`. -/
def containsEq : Str → Bool
  | [] => false
  | c :: cs => if c = '=' then true else containsEq cs

/-- splitFirstEq models `line.split('=', 1)`: split at the first equals
sign, returning none when the string has no equals sign. -/
def splitFirstEq : Str → Option (Str × Str)
  | [] => none
  | c :: cs =>
    if c = '=' then some ([], cs)
    else (splitFirstEq cs).map (fun p => (c :: p.1, p.2))

/-- parseLine models the body of the loop in
`YateConfigManager.parse_config` (src/yate-config.py lines 92-95): a line
contributes a key/value pair iff it contains an equals sign and its
stripped form does not start with a hash; key and value are the two halves
of the first-equals split, each stripped. -/
def parseLine (line : Str) : Option (Str × Str) :=
  if containsEq line && !startsWithHash (strip line) then
    match splitFirstEq line with
    | some (k, v) => some (strip k, strip v)
    | none => none
  else none

/-- ConfigMap models the Python dict `self.current_config`. -/
abbrev ConfigMap := List (Str × Str)

/-- hasKey models `k in d` for an association list. -/
def hasKey {α β : Type} [DecidableEq α] : List (α × β) → α → Bool
  | [], _ => false
  | p :: ps, k => if p.1 = k then true else hasKey ps k

/-- lookupA models `d[k]` (as an Option) for an association list. -/
def lookupA {α β : Type} [DecidableEq α] : List (α × β) → α → Option β
  | [], _ => none
  | p :: ps, k => if p.1 = k then some p.2 else lookupA ps k

/-- setAll replaces the value at every entry whose key equals `k`
(association lists built by `upsertA` hold each key at most once). -/
def setAll {α β : Type} [DecidableEq α] (m : List (α × β)) (k : α) (v : β) :
    List (α × β) :=
  m.map (fun p => if p.1 = k then (p.1, v) else p)

/-- upsertA models Python dict assignment `d[k] = v`: overwrite in place
when the key exists, append otherwise (insertion order preserved). -/
def upsertA {α β : Type} [DecidableEq α] (m : List (α × β)) (k : α) (v : β) :
    List (α × β) :=
  if hasKey m k then setAll m k v else m ++ [(k, v)]

/-- pstep processes one line of the config file into the accumulating dict,
as the loop body of `parse_config` does. -/
def pstep (m : ConfigMap) (line : Str) : ConfigMap :=
  match parseLine line with
  | some (k, v) => upsertA m k v
  | none => m

/-- parse_config models `YateConfigManager.parse_config`
(src/yate-config.py lines 89-95), starting from the empty dict set up in
`__init__`. -/
def parse_config (lines : List Str) : ConfigMap :=
  lines.foldl pstep []

/-- FS models the filesystem state touched by the program: directories
created (path and mode, in creation order), files (path and content as a
list of lines), and file modes set by chmod. -/
structure FS where
  dirs : List (Str × Nat)
  files : List (Str × List Str)
  fmodes : List (Str × Nat)
deriving DecidableEq

/-- fileExists models `os.path.exists` on a file path. -/
def fileExists (fs : FS) (p : Str) : Bool :=
  (lookupA fs.files p).isSome

/-- dirExists models `os.path.exists` on a directory path. -/
def dirExists (fs : FS) (p : Str) : Bool :=
  (lookupA fs.dirs p).isSome

/-- getFile reads a file's content (its list of lines). -/
def getFile (fs : FS) (p : Str) : Option (List Str) :=
  lookupA fs.files p

/-- writeFile models `open(p, 'w'); f.write(content)`: create or
overwrite. -/
def writeFile (fs : FS) (p : Str) (content : List Str) : FS :=
  { fs with files := upsertA fs.files p content }

/-- mkdir models `os.makedirs(p, mode)` for a not-yet-existing path. -/
def mkdir (fs : FS) (p : Str) (mode : Nat) : FS :=
  { fs with dirs := fs.dirs ++ [(p, mode)] }

/-- chmodFile models `os.chmod(p, mode)`. -/
def chmodFile (fs : FS) (p : Str) (mode : Nat) : FS :=
  { fs with fmodes := upsertA fs.fmodes p mode }

/-- fileMode reads the mode last set by chmod on a file. -/
def fileMode (fs : FS) (p : Str) : Option Nat :=
  lookupA fs.fmodes p

/-- CONFIG_DIR mirrors the constant at src/yate-config.py line 23. -/
def CONFIG_DIR : Str := ("/etc/yate").toList

/-- CONFIG_FILE mirrors the constant at src/yate-config.py line 24. -/
def CONFIG_FILE : Str := ("/etc/yate/yate.conf").toList

/-- CERT_DIR mirrors the constant at src/yate-config.py line 25. -/
def CERT_DIR : Str := ("/etc/yate/certs").toList

/-- CERT_FILE mirrors the constant at src/yate-config.py line 26. -/
def CERT_FILE : Str := ("/etc/yate/certs/public_cert.pem").toList

/-- LOG_DIR mirrors the constant at src/yate-config.py line 27. -/
def LOG_DIR : Str := ("/var/log/yate").toList

/-- BACKUP_DIR mirrors the constant at src/yate-config.py line 28. -/
def BACKUP_DIR : Str := ("/etc/yate/backups").toList

/-- KEY_FILE is the private key path used at src/yate-config.py
lines 115 and 128. -/
def KEY_FILE : Str := ("/etc/yate/certs/private_key.pem").toList

/-- CONFIG_TEMPLATE mirrors the template string at src/yate-config.py
lines 31-68, as a list of lines with the format placeholders as
parameters. -/
def CONFIG_TEMPLATE (timestamp usr hostname band channel power mcc mnc lac
    cell_id tls_enabled cert_path key_path users audit_log : Str) :
    List Str :=
  [ ("# YateBTS Configuration - Secure Edition v2.3").toList,
    ("# Last modified: ").toList ++ timestamp,
    ("# Authorized operators: ").toList ++ usr ++ ("@").toList ++ hostname,
    ("").toList,
    ("[core]").toList,
    ("http.enabled=yes").toList,
    ("http.port=5038").toList,
    ("http.allowed=127.0.0.1,192.168.0.0/16").toList,
    ("").toList,
    ("[GSM]").toList,
    ("Radio.Band=").toList ++ band,
    ("Radio.C0=").toList ++ channel,
    ("Radio.MaxTxPower=").toList ++ power,
    ("Radio.CountryCode=").toList ++ mcc,
    ("Radio.NetworkCode=").toList ++ mnc,
    ("Radio.LAC=").toList ++ lac,
    ("Radio.CellID=").toList ++ cell_id,
    ("Radio.Encryption.A5.1=no").toList,
    ("Radio.Encryption.A5.3=yes").toList,
    ("").toList,
    ("[Security]").toList,
    ("TLS.Enabled=").toList ++ tls_enabled,
    ("TLS.Certificate=").toList ++ cert_path,
    ("TLS.Key=").toList ++ key_path,
    ("AccessControl=").toList ++ users,
    ("AuditLog=").toList ++ audit_log,
    ("FailedLoginAttempts=3").toList,
    ("LoginBanTime=300").toList,
    ("").toList,
    ("[Monitoring]").toList,
    ("SystemStats.Interval=60").toList,
    ("CallDataRecords=yes").toList,
    ("SMS.Logs=yes").toList,
    ("").toList,
    ("[Interfaces]").toList,
    ("GSM.Interface=eth0").toList,
    ("SIP.Interface=eth0").toList,
    ("").toList ]

/-- default_config is CONFIG_TEMPLATE rendered with the fixed defaults
passed in `create_default_config` (src/yate-config.py lines 102-118); the
live-computed timestamp, user and hostname remain parameters. -/
def default_config (timestamp usr hostname : Str) : List Str :=
  CONFIG_TEMPLATE timestamp usr hostname
    (("GSM900").toList) (("62").toList) (("20").toList) (("645").toList)
    (("01").toList) (("4101").toList) (("101").toList) (("yes").toList)
    CERT_FILE KEY_FILE (("admin,root").toList)
    (("/var/log/yate/audit.log").toList)

/-- generate_self_signed_cert models src/yate-config.py lines 126-138;
the bytes openssl writes into the key and certificate files are external
inputs.  Nothing happens when the certificate file already exists;
otherwise openssl writes both files and the key file is chmod-ed to
octal 600. -/
def generate_self_signed_cert (keyBytes certBytes : List Str) (fs : FS) :
    FS :=
  if fileExists fs CERT_FILE then fs
  else chmodFile (writeFile (writeFile fs KEY_FILE keyBytes)
    CERT_FILE certBytes) KEY_FILE 0o600

/-- create_default_config models src/yate-config.py lines 97-124: write
the rendered template to CONFIG_FILE, then provision the certificate. -/
def create_default_config (timestamp usr hostname : Str)
    (keyBytes certBytes : List Str) (fs : FS) : FS :=
  generate_self_signed_cert keyBytes certBytes
    (writeFile fs CONFIG_FILE (default_config timestamp usr hostname))

/-- load_or_create_config models src/yate-config.py lines 76-87 (the body
of `YateConfigManager.__init__`): create the four directories when the
config directory is absent, then parse the config file if it exists, else
create the default one (which does not populate `current_config`).  The
result is the filesystem after the call paired with `current_config`. -/
def load_or_create_config (timestamp usr hostname : Str)
    (keyBytes certBytes : List Str) (fs : FS) : FS × ConfigMap :=
  let fs1 := if dirExists fs CONFIG_DIR then fs
    else mkdir (mkdir (mkdir (mkdir fs CONFIG_DIR 0o750) CERT_DIR 0o700)
      BACKUP_DIR 0o750) LOG_DIR 0o775
  if fileExists fs1 CONFIG_FILE then
    (fs1, parse_config ((getFile fs1 CONFIG_FILE).getD []))
  else
    (create_default_config timestamp usr hostname keyBytes certBytes fs1, [])

/-- backupPath is the destination path derived in `backup_config`
(src/yate-config.py line 143) from the second-resolution timestamp. -/
def backupPath (timestamp : Str) : Str :=
  BACKUP_DIR ++ ("/yate.conf.").toList ++ timestamp

/-- backup_config models `YateConfigManager.backup_config`
(src/yate-config.py lines 140-145): derive the timestamped destination,
run `cp` through `os.system` (whose exit status is discarded, so a missing
source leaves the filesystem unchanged), and return the destination path
unconditionally. -/
def backup_config (timestamp : Str) (fs : FS) : FS × Str :=
  match getFile fs CONFIG_FILE with
  | some content => (writeFile fs (backupPath timestamp) content,
      backupPath timestamp)
  | none => (fs, backupPath timestamp)

/-- validate_config models `YateConfigManager.validate_config`
(src/yate-config.py lines 147-150): it reads nothing of the configuration
state and returns True. -/
def validate_config (_cfg : ConfigMap) : Bool :=
  true

/-- DashState models the mutable state of `YateDashboard`: the reactive
fields (src/yate-config.py lines 163-165), the GSM switch, the event log,
the wrapped config manager's dict, and the filesystem the dashboard's
actions touch. -/
structure DashState where
  gsm_status : Str
  system_load : Nat
  active_calls : Nat
  gsm_switch : Bool
  eventLog : List String
  current_config : ConfigMap
  fs : FS
deriving DecidableEq

/-- initDashState is the dashboard's state at construction: the reactive
defaults of src/yate-config.py lines 163-165 plus the wrapped manager
state. -/
def initDashState (fs : FS) (cfg : ConfigMap) : DashState :=
  { gsm_status := ("stopped").toList,
    system_load := 0,
    active_calls := 0,
    gsm_switch := false,
    eventLog := [],
    current_config := cfg,
    fs := fs }

/-- action_save models `YateDashboard.action_save` (src/yate-config.py
lines 249-252): it appends one log line and does nothing else (the write
to the config file is an unimplemented comment). -/
def action_save (s : DashState) : DashState :=
  { s with eventLog := s.eventLog ++ ["Saving configuration..."] }

/-- action_restart models `YateDashboard.action_restart`
(src/yate-config.py lines 244-247): log only. -/
def action_restart (s : DashState) : DashState :=
  { s with eventLog := s.eventLog ++ ["Restarting Yate service..."] }

/-- action_backup models `YateDashboard.action_backup` (src/yate-config.py
lines 254-257): delegate to backup_config and log the returned path. -/
def action_backup (timestamp : Str) (s : DashState) : DashState :=
  let r := backup_config timestamp s.fs
  { s with
    fs := r.1
    eventLog := s.eventLog ++ ["Created backup: " ++ (String.mk r.2)] }

/-- action_monitor models `YateDashboard.action_monitor`
(src/yate-config.py lines 259-261): log only. -/
def action_monitor (s : DashState) : DashState :=
  { s with eventLog := s.eventLog ++ ["Opening real-time monitor..."] }

/-- update_system_metrics models src/yate-config.py lines 220-232; the
telemetry sample delivered by psutil and getloadavg is an external input
(abstracted to one numeric sample). -/
def update_system_metrics (load : Nat) (s : DashState) : DashState :=
  { s with system_load := load }

/-- on_button_pressed_stop models the Emergency Stop branch of
`YateDashboard.on_button_pressed` (src/yate-config.py lines 267-269):
set gsm_status to the string stopped and clear the GSM switch. -/
def on_button_pressed_stop (s : DashState) : DashState :=
  { s with gsm_status := ("stopped").toList, gsm_switch := false }

/-- DashEvent enumerates the handlers that can fire in the dashboard's
event loop: the two buttons (src/yate-config.py lines 263-269), the four
key-bound actions (lines 154-160), and the one-second metric timer
(line 218).  Backup events and ticks carry their external inputs. -/
inductive DashEvent where
  | pressApply
  | pressStop
  | keyRestart
  | keySave
  | keyBackup (timestamp : Str)
  | keyMonitor
  | tick (load : Nat)

/-- dash_step dispatches one event to its handler, exactly as the textual
bindings and `on_button_pressed` do (the Apply button calls
action_save). -/
def dash_step (s : DashState) : DashEvent → DashState
  | DashEvent.pressApply => action_save s
  | DashEvent.pressStop => on_button_pressed_stop s
  | DashEvent.keyRestart => action_restart s
  | DashEvent.keySave => action_save s
  | DashEvent.keyBackup ts => action_backup ts s
  | DashEvent.keyMonitor => action_monitor s
  | DashEvent.tick load => update_system_metrics load s

/-- dash_run folds a sequence of events over the freshly constructed
dashboard: every reachable dashboard state is `dash_run fs cfg events`
for some event list. -/
def dash_run (fs : FS) (cfg : ConfigMap) (events : List DashEvent) :
    DashState :=
  events.foldl dash_step (initDashState fs cfg)

/-- ROOT_ERR is the message printed by `main` when not run as root
(src/yate-config.py line 274). -/
def ROOT_ERR : String :=
  "[error]This tool requires root privileges. Use sudo.[/error]"

/-- pymain models `main` plus the surrounding script exit
(src/yate-config.py lines 271-285): when the effective uid is not zero it
prints the error and returns, after which the interpreter exits with
status zero; otherwise the config manager is constructed (touching the
filesystem) and the dashboard runs, also ending with status zero.  The
result is (exit status, printed messages, final filesystem). -/
def pymain (euid : Nat) (timestamp usr hostname : Str)
    (keyBytes certBytes : List Str) (fs : FS) : Nat × List String × FS :=
  if euid ≠ 0 then (0, [ROOT_ERR], fs)
  else (0, [],
    (load_or_create_config timestamp usr hostname keyBytes certBytes fs).1)

end Yate

namespace Yate

-- Association-list toolkit: lookup/upsert interaction.

theorem hasKey_eq_isSome {α β : Type} [DecidableEq α]
    (m : List (α × β)) (k : α) : hasKey m k = (lookupA m k).isSome := by
  induction m with
  | nil => rfl
  | cons p ps ih =>
    by_cases h : p.1 = k <;> simp [hasKey, lookupA, h, ih]

theorem lookupA_append_none {α β : Type} [DecidableEq α]
    {m₁ : List (α × β)} {k : α} (m₂ : List (α × β))
    (h : lookupA m₁ k = none) :
    lookupA (m₁ ++ m₂) k = lookupA m₂ k := by
  induction m₁ with
  | nil => simp
  | cons p ps ih =>
    by_cases hp : p.1 = k
    · simp [lookupA, hp] at h
    · simp [lookupA, hp] at h ⊢
      exact ih h

theorem lookupA_append_some {α β : Type} [DecidableEq α]
    {m₁ : List (α × β)} {k : α} {v : β} (m₂ : List (α × β))
    (h : lookupA m₁ k = some v) :
    lookupA (m₁ ++ m₂) k = some v := by
  induction m₁ with
  | nil => simp [lookupA] at h
  | cons p ps ih =>
    by_cases hp : p.1 = k
    · simp [lookupA, hp] at h ⊢
      exact h
    · simp [lookupA, hp] at h ⊢
      exact ih h

theorem lookupA_setAll_self {α β : Type} [DecidableEq α]
    {m : List (α × β)} {k : α} (v : β) (h : hasKey m k = true) :
    lookupA (setAll m k v) k = some v := by
  induction m with
  | nil => simp [hasKey] at h
  | cons p ps ih =>
    by_cases hp : p.1 = k
    · simp [setAll, lookupA, hp]
    · simp [hasKey, hp] at h
      simp [setAll, lookupA, hp] at ih ⊢
      exact ih h

theorem lookupA_setAll_other {α β : Type} [DecidableEq α]
    (m : List (α × β)) (k : α) (v : β) {k' : α} (h : k' ≠ k) :
    lookupA (setAll m k v) k' = lookupA m k' := by
  have hne : ¬ k = k' := fun hkk => h hkk.symm
  induction m with
  | nil => rfl
  | cons p ps ih =>
    by_cases hp : p.1 = k'
    · have hpk : ¬ p.1 = k := by
        intro hk; exact h (hp ▸ hk ▸ rfl)
      simp [setAll, lookupA, hp, hpk, h]
    · by_cases hpk : p.1 = k
      · simp [setAll, lookupA, hp, hpk, hne] at ih ⊢
        exact ih
      · simp [setAll, lookupA, hp, hpk] at ih ⊢
        exact ih

theorem lookup_upsert_self {α β : Type} [DecidableEq α]
    (m : List (α × β)) (k : α) (v : β) :
    lookupA (upsertA m k v) k = some v := by
  by_cases h : hasKey m k
  · simp [upsertA, h, lookupA_setAll_self v h]
  · have hn : lookupA m k = none := by
      cases hl : lookupA m k with
      | none => rfl
      | some w => rw [hasKey_eq_isSome, hl] at h; simp at h
    simp [upsertA, h]
    rw [lookupA_append_none _ hn]
    simp [lookupA]

theorem lookup_upsert_other {α β : Type} [DecidableEq α]
    (m : List (α × β)) (k : α) (v : β) {k' : α} (h : k' ≠ k) :
    lookupA (upsertA m k v) k' = lookupA m k' := by
  by_cases hk : hasKey m k
  · simp [upsertA, hk, lookupA_setAll_other m k v h]
  · simp [upsertA, hk]
    cases hl : lookupA m k' with
    | some w => exact lookupA_append_some _ hl
    | none =>
      have hne : ¬ k = k' := fun hkk => h hkk.symm
      rw [lookupA_append_none _ hl]
      simp [lookupA, hne]

-- Filesystem toolkit.

theorem getFile_writeFile_self (fs : FS) (p : Str) (c : List Str) :
    getFile (writeFile fs p c) p = some c := by
  simp [getFile, writeFile, lookup_upsert_self]

theorem getFile_writeFile_other (fs : FS) (q p : Str) (c : List Str)
    (h : p ≠ q) : getFile (writeFile fs q c) p = getFile fs p := by
  simp [getFile, writeFile, lookup_upsert_other _ _ _ h]

theorem fileExists_writeFile_self (fs : FS) (p : Str) (c : List Str) :
    fileExists (writeFile fs p c) p = true := by
  simp [fileExists, writeFile, lookup_upsert_self]

theorem fileExists_writeFile_other (fs : FS) (q p : Str) (c : List Str)
    (h : p ≠ q) : fileExists (writeFile fs q c) p = fileExists fs p := by
  simp [fileExists, writeFile, lookup_upsert_other _ _ _ h]

theorem fileMode_chmod_self (fs : FS) (p : Str) (m : Nat) :
    fileMode (chmodFile fs p m) p = some m := by
  simp [fileMode, chmodFile, lookup_upsert_self]

end Yate

namespace Yate

-- Parser toolkit.

theorem splitFirstEq_some {l k v : Str} (h : splitFirstEq l = some (k, v)) :
    l = k ++ '=' :: v ∧ containsEq k = false := by
  induction l generalizing k v with
  | nil => simp [splitFirstEq] at h
  | cons c cs ih =>
    by_cases hc : c = '='
    · subst hc
      simp [splitFirstEq] at h
      obtain ⟨hk, hv⟩ := h
      subst hk; subst hv
      exact ⟨rfl, rfl⟩
    · rw [show splitFirstEq (c :: cs)
          = (splitFirstEq cs).map (fun p => (c :: p.1, p.2)) from by
        simp [splitFirstEq, hc]] at h
      cases hsp : splitFirstEq cs with
      | none => rw [hsp] at h; simp at h
      | some p =>
        rw [hsp] at h
        simp only [Option.map_some', Option.some.injEq] at h
        have hk : c :: p.1 = k := congrArg Prod.fst h
        have hv : p.2 = v := congrArg Prod.snd h
        obtain ⟨hl0, hc0⟩ :=
          ih (show splitFirstEq cs = some (p.1, p.2) from hsp)
        subst hv; subst hk
        constructor
        · simp [hl0]
        · simp [containsEq, hc, hc0]

theorem containsEq_eq_isSome (l : Str) :
    containsEq l = (splitFirstEq l).isSome := by
  induction l with
  | nil => rfl
  | cons c cs ih =>
    by_cases hc : c = '=' <;> simp [containsEq, splitFirstEq, hc, ih]

theorem parseLine_isSome (line : Str) :
    (parseLine line).isSome
      = (containsEq line && !startsWithHash (strip line)) := by
  by_cases hcond : containsEq line && !startsWithHash (strip line)
  · have hs : (splitFirstEq line).isSome = true := by
      rw [← containsEq_eq_isSome]
      exact (Bool.and_elim_left hcond)
    cases hsp : splitFirstEq line with
    | none => rw [hsp] at hs; simp at hs
    | some p =>
      simp [parseLine, hcond, hsp]
  · simp [parseLine, hcond]

theorem parseLine_some_decomp {line k v : Str}
    (h : parseLine line = some (k, v)) :
    ∃ k0 v0, line = k0 ++ '=' :: v0 ∧ containsEq k0 = false
      ∧ k = strip k0 ∧ v = strip v0 := by
  by_cases hcond : containsEq line && !startsWithHash (strip line)
  · cases hsp : splitFirstEq line with
    | none =>
      simp [parseLine, hcond, hsp] at h
    | some p =>
      obtain ⟨k0, v0⟩ := p
      simp [parseLine, hcond, hsp] at h
      obtain ⟨hk, hv⟩ := h
      obtain ⟨hl0, hc0⟩ := splitFirstEq_some hsp
      exact ⟨k0, v0, hl0, hc0, hk.symm, hv.symm⟩
  · simp [parseLine, hcond] at h

-- Every line whose first character is a hash is skipped, whatever follows.

theorem dropWhile_append_last (p : Char → Bool) (c : Char)
    (hc : p c = false) (l : Str) :
    ∃ l2, (l ++ [c]).dropWhile p = l2 ++ [c] := by
  induction l with
  | nil => exact ⟨[], by simp [List.dropWhile, hc]⟩
  | cons a as ih =>
    by_cases ha : p a
    · obtain ⟨l2, hl2⟩ := ih
      exact ⟨l2, by simp [List.dropWhile, ha, hl2]⟩
    · exact ⟨a :: as, by simp [List.dropWhile, ha]⟩

theorem startsWithHash_strip_hash (l : Str) :
    startsWithHash (strip ('#' :: l)) = true := by
  have h1 : pyIsSpace '#' = false := by decide
  have h2 : ('#' :: l).dropWhile pyIsSpace = '#' :: l := by
    simp [List.dropWhile, h1]
  obtain ⟨l2, hl2⟩ := dropWhile_append_last pyIsSpace '#' h1 l.reverse
  simp [strip, stripRight, h2, List.reverse_cons, hl2, startsWithHash]

theorem parseLine_hash_head (l : Str) : parseLine ('#' :: l) = none := by
  simp [parseLine, startsWithHash_strip_hash]

theorem pstep_none {line : Str} (m : ConfigMap)
    (h : parseLine line = none) : pstep m line = m := by
  simp [pstep, h]

-- The three leading comment lines of the rendered template are skipped for
-- every timestamp, user and hostname, so parsing the default config is
-- independent of them.

theorem parse_default (t u h : Str) :
    parse_config (default_config t u h)
      = parse_config (List.drop 3 (default_config [] [] [])) := by
  have hl1 : parseLine (("# YateBTS Configuration - Secure Edition v2.3").toList) = none := by
    exact parseLine_hash_head ((" YateBTS Configuration - Secure Edition v2.3").toList)
  have hl2 : parseLine (("# Last modified: ").toList ++ t) = none := by
    exact parseLine_hash_head ((" Last modified: ").toList ++ t)
  have hl3 : parseLine (("# Authorized operators: ").toList ++ u ++ ("@").toList ++ h) = none := by
    exact parseLine_hash_head ((" Authorized operators: ").toList ++ u ++ ("@").toList ++ h)
  show List.foldl pstep [] (default_config t u h)
      = List.foldl pstep [] (List.drop 3 (default_config [] [] []))
  rw [show default_config t u h
      = ("# YateBTS Configuration - Secure Edition v2.3").toList
        :: (("# Last modified: ").toList ++ t)
        :: (("# Authorized operators: ").toList ++ u ++ ("@").toList ++ h)
        :: List.drop 3 (default_config [] [] []) from rfl]
  rw [List.foldl_cons, List.foldl_cons, List.foldl_cons]
  rw [pstep_none _ hl1, pstep_none _ hl2, pstep_none _ hl3]

end Yate

namespace Yate

-- Lookup in the parsed map is unaffected by lines that do not write the key.

theorem lookup_foldl_pstep_no_write (post : List Str) :
    ∀ (m : ConfigMap) (k : Str),
    (∀ l2 ∈ post, ∀ v2, parseLine l2 ≠ some (k, v2)) →
    lookupA (List.foldl pstep m post) k = lookupA m k := by
  induction post with
  | nil => intro m k _; rfl
  | cons l2 ls ih =>
    intro m k hno
    rw [List.foldl_cons]
    have hrest : ∀ l3 ∈ ls, ∀ v2, parseLine l3 ≠ some (k, v2) :=
      fun l3 hl3 v2 => hno l3 (List.mem_cons_of_mem _ hl3) v2
    rw [ih _ k hrest]
    cases hp : parseLine l2 with
    | none => simp [pstep, hp]
    | some kv =>
      obtain ⟨k2, v2⟩ := kv
      have hk2 : k ≠ k2 := by
        intro hkk
        exact hno l2 (List.mem_cons_self _ _) v2 (by rw [hp, hkk])
      simp [pstep, hp, lookup_upsert_other _ _ _ hk2]

-- Trivial projections of the filesystem operations.

theorem getFile_chmod (fs : FS) (p : Str) (m : Nat) (q : Str) :
    getFile (chmodFile fs p m) q = getFile fs q := rfl

theorem fileExists_chmod (fs : FS) (p : Str) (m : Nat) (q : Str) :
    fileExists (chmodFile fs p m) q = fileExists fs q := rfl

-- Concrete fixtures used by witnesses and counterexamples.

/-- fourDirs is the directory layout after a completed first run. -/
def fourDirs : List (Str × Nat) :=
  [(CONFIG_DIR, 0o750), (CERT_DIR, 0o700), (BACKUP_DIR, 0o750),
   (LOG_DIR, 0o775)]

/-- fsWithCfg is a provisioned filesystem holding a one-line config file. -/
def fsWithCfg : FS :=
  { dirs := fourDirs,
    files := [(CONFIG_FILE, [("Radio.Band=GSM900").toList])],
    fmodes := [] }

/-- fsNoCfg has the directories but no config file (deleted source). -/
def fsNoCfg : FS :=
  { dirs := fourDirs, files := [], fmodes := [] }

/-- fsCertOnly has the directories and a certificate but no config file. -/
def fsCertOnly : FS :=
  { dirs := fourDirs,
    files := [(CERT_FILE, [("certificate-bytes").toList])],
    fmodes := [] }

/-- fsEmpty is a completely fresh filesystem. -/
def fsEmpty : FS :=
  { dirs := [], files := [], fmodes := [] }

/-- tsX is a fixed second-resolution timestamp string. -/
def tsX : Str := ("20260101_120000").toList

/-- C4: for every input line, the parser adds an entry iff the line
contains an equals sign and its whitespace-stripped form does not start
with a hash; the key/value split is at the first equals sign with both
sides trimmed; the line hash-space-Radio.Band=GSM1800 contributes nothing
and Radio.Band=GSM1800=extra yields key Radio.Band with value
GSM1800=extra. -/
theorem C4_parser_rules :
    (∀ line : Str, (parseLine line).isSome
        = (containsEq line && !startsWithHash (strip line)))
  ∧ (∀ line k v : Str, parseLine line = some (k, v) →
      ∃ k0 v0, line = k0 ++ '=' :: v0 ∧ containsEq k0 = false
        ∧ k = strip k0 ∧ v = strip v0)
  ∧ parseLine (("# Radio.Band=GSM1800").toList) = none
  ∧ parseLine (("Radio.Band=GSM1800=extra").toList)
      = some ((("Radio.Band").toList), (("GSM1800=extra").toList)) := by
  refine ⟨parseLine_isSome, ?_, by decide, by decide⟩
  intro line k v h
  exact parseLine_some_decomp h

/-- Witness for C4: the split/trim characterization applied to the
concrete line space-Radio.Band-space-=-space-GSM1800-space. -/
theorem C4_parser_rules_witness :
    parseLine ((" Radio.Band = GSM1800 ").toList)
      = some ((("Radio.Band").toList), (("GSM1800").toList))
  ∧ (∃ k0 v0, (" Radio.Band = GSM1800 ").toList = k0 ++ '=' :: v0
      ∧ containsEq k0 = false
      ∧ ("Radio.Band").toList = strip k0
      ∧ ("GSM1800").toList = strip v0) := by
  refine ⟨by decide, ?_⟩
  exact C4_parser_rules.2.1 ((" Radio.Band = GSM1800 ").toList)
    (("Radio.Band").toList) (("GSM1800").toList) (by decide)

/-- C9 counterexample: the line starting with an equals sign passes the
parser's filter and yields an entry whose key is the empty string, so the
parsed map does hold an empty key, contrary to the claim. -/
theorem C9_counterexample :
    parseLine (("=GSM900").toList) = some (([] : Str), (("GSM900").toList))
  ∧ parse_config [("=GSM900").toList]
      = [(([] : Str), (("GSM900").toList))] := by
  exact ⟨by decide, by decide⟩

/-- C9 (amended): the parser can produce an entry with an empty key (a
line beginning with an equals sign yields the key empty-string); on
duplicate keys the last occurrence's value wins: the value looked up
after parsing is the one of the last line that writes the key. -/
theorem C9_amended_keys :
    parseLine (("=GSM900").toList) = some (([] : Str), (("GSM900").toList))
  ∧ (∀ (pre post : List Str) (line k v : Str),
      parseLine line = some (k, v) →
      (∀ l2 ∈ post, ∀ v2, parseLine l2 ≠ some (k, v2)) →
      lookupA (parse_config (pre ++ line :: post)) k = some v) := by
  refine ⟨by decide, ?_⟩
  intro pre post line k v hline hno
  show lookupA (List.foldl pstep [] (pre ++ line :: post)) k = some v
  rw [List.foldl_append, List.foldl_cons]
  rw [lookup_foldl_pstep_no_write post _ k hno]
  simp [pstep, hline, lookup_upsert_self]

/-- Witness for C9: with the key Radio.Band written twice and a later
unrelated line, lookup returns the value of the last write. -/
theorem C9_amended_keys_witness :
    lookupA (parse_config ([("Radio.Band=GSM900").toList]
        ++ ("Radio.Band=GSM1800").toList :: [("Radio.LAC=4101").toList]))
      (("Radio.Band").toList) = some (("GSM1800").toList) := by
  have hno : ∀ l2 ∈ [("Radio.LAC=4101").toList], ∀ v2 : Str,
      parseLine l2 ≠ some ((("Radio.Band").toList), v2) := by
    intro l2 hl2 v2 hcon
    rw [List.mem_singleton] at hl2
    subst hl2
    rw [show parseLine (("Radio.LAC=4101").toList)
        = some ((("Radio.LAC").toList), (("4101").toList)) from by decide]
      at hcon
    have hfst : (("Radio.LAC").toList : Str) = ("Radio.Band").toList :=
      congrArg Prod.fst (Option.some.inj hcon)
    exact absurd hfst (by decide)
  exact C9_amended_keys.2 [("Radio.Band=GSM900").toList]
    [("Radio.LAC=4101").toList] (("Radio.Band=GSM1800").toList)
    (("Radio.Band").toList) (("GSM1800").toList) (by decide) hno

/-- lacEmptyCfg is a configuration state in which Radio.LAC has been set
to the empty string. -/
def lacEmptyCfg : ConfigMap :=
  upsertA [((("Radio.LAC").toList), (("9999").toList))]
    (("Radio.LAC").toList) []

/-- C7 counterexample: with Radio.LAC present but set to the empty string,
the source's validate_config still returns success (True); the claim
requires a failure listing the LAC rule. -/
theorem C7_counterexample :
    lookupA lacEmptyCfg (("Radio.LAC").toList) = some ([] : Str)
  ∧ validate_config lacEmptyCfg = true := by
  exact ⟨by decide, rfl⟩

/-- C7 (amended): validate_config is a pure function of the configuration
state that returns success (True) for every state, regardless of which
keys are absent or empty; it implements no rule at all. -/
theorem C7_amended_always_true :
    ∀ cfg : ConfigMap, validate_config cfg = true :=
  fun _ => rfl

end Yate

namespace Yate

/-- fsAfterB1 is the filesystem after a first backup at timestamp tsX. -/
def fsAfterB1 : FS := (backup_config tsX fsWithCfg).1

/-- fsEdited is fsAfterB1 with the config file rewritten (a later state
inside the same wall-clock second). -/
def fsEdited : FS :=
  writeFile fsAfterB1 CONFIG_FILE [("Radio.Band=GSM1800").toList]

/-- fsAfterB2 is the filesystem after a second backup in the same
second. -/
def fsAfterB2 : FS := (backup_config tsX fsEdited).1

/-- C2 counterexample: two backup calls whose timestamps fall in the same
second derive the identical destination path, and the second call silently
replaces the first backup's content (GSM900) with the new one (GSM1800);
no error is signalled and no disambiguating suffix is appended. -/
theorem C2_counterexample :
    (backup_config tsX fsWithCfg).2 = (backup_config tsX fsEdited).2
  ∧ getFile fsAfterB1 (backupPath tsX)
      = some [("Radio.Band=GSM900").toList]
  ∧ getFile fsAfterB2 (backupPath tsX)
      = some [("Radio.Band=GSM1800").toList] := by
  exact ⟨by decide, by decide, by decide⟩

/-- C2 (amended): any two backup_config calls with timestamps in the same
second derive the same destination path (there is no disambiguating
suffix and no BackupCollisionError in the code), and the second call
overwrites that path with its current config content, discarding whatever
backup was there. -/
theorem C2_amended_overwrite :
    ∀ (ts : Str) (fs fs2 : FS),
    (backup_config ts fs).2 = backupPath ts
  ∧ (backup_config ts fs2).2 = (backup_config ts fs).2
  ∧ (∀ content, getFile fs2 CONFIG_FILE = some content →
      getFile (backup_config ts fs2).1 (backupPath ts) = some content) := by
  intro ts fs fs2
  refine ⟨?_, ?_, ?_⟩
  · cases h : getFile fs CONFIG_FILE <;> simp [backup_config, h]
  · cases h : getFile fs CONFIG_FILE <;>
      cases h2 : getFile fs2 CONFIG_FILE <;>
      simp [backup_config, h, h2]
  · intro content h2
    simp [backup_config, h2, getFile_writeFile_self]

/-- Witness for C2: the overwrite clause applied to the concrete edited
filesystem. -/
theorem C2_amended_overwrite_witness :
    getFile fsEdited CONFIG_FILE = some [("Radio.Band=GSM1800").toList]
  ∧ getFile (backup_config tsX fsEdited).1 (backupPath tsX)
      = some [("Radio.Band=GSM1800").toList] := by
  refine ⟨by decide, ?_⟩
  exact (C2_amended_overwrite tsX fsWithCfg fsEdited).2.2
    [("Radio.Band=GSM1800").toList] (by decide)

/-- C3 counterexample: with the source config file missing, backup_config
raises nothing and still returns the destination path as if it had
succeeded, leaving the filesystem unchanged; the claim requires an
IoError instead. -/
theorem C3_counterexample :
    fileExists fsNoCfg CONFIG_FILE = false
  ∧ backup_config tsX fsNoCfg = (fsNoCfg, backupPath tsX) := by
  exact ⟨by decide, by decide⟩

/-- C3 (amended): backup_config never fails: the copy utility's exit
status is discarded, so when the source config file is missing the call
performs no copy, changes nothing, and still returns the backup path as a
success value; no IoError exists in the code. -/
theorem C3_amended_no_error :
    ∀ (ts : Str) (fs : FS),
    fileExists fs CONFIG_FILE = false →
    backup_config ts fs = (fs, backupPath ts) := by
  intro ts fs h
  have hn : getFile fs CONFIG_FILE = none := by
    unfold fileExists at h
    cases hl : lookupA fs.files CONFIG_FILE with
    | none => simp [getFile, hl]
    | some c => rw [hl] at h; simp at h
  simp [backup_config, hn]

/-- Witness for C3: the amended statement applied to the empty
filesystem. -/
theorem C3_amended_no_error_witness :
    fileExists fsEmpty CONFIG_FILE = false
  ∧ backup_config tsX fsEmpty = (fsEmpty, backupPath tsX) :=
  ⟨by decide, C3_amended_no_error tsX fsEmpty (by decide)⟩

/-- backupCount counts the files under the backup directory. -/
def backupCount (fs : FS) : Nat :=
  (fs.files.filter
    (fun f => (("/etc/yate/backups/").toList).isPrefixOf f.1)).length

/-- dashS0 is a dashboard state with an on-disk config file (Radio.Band
GSM900), a diverging in-memory edit (Radio.Band GSM1800), and an empty
event log. -/
def dashS0 : DashState :=
  { gsm_status := ("stopped").toList,
    system_load := 0,
    active_calls := 0,
    gsm_switch := true,
    eventLog := [],
    current_config :=
      upsertA (parse_config [("Radio.Band=GSM900").toList])
        (("Radio.Band").toList) (("GSM1800").toList),
    fs := fsWithCfg }

/-- C1: evaluating the save handler at a dashboard state with unflushed
in-memory edits shows that it only appends the log line and neither
creates a backup of the on-disk content nor writes anything: the
filesystem, the backup count and the in-memory map are all unchanged, so
no flush with backup-before-write happens at all. -/
theorem C1_save_is_stub :
    action_save dashS0
      = { dashS0 with eventLog := ["Saving configuration..."] }
  ∧ (action_save dashS0).fs = dashS0.fs
  ∧ (action_save dashS0).current_config = dashS0.current_config
  ∧ backupCount dashS0.fs = 0
  ∧ backupCount (action_save dashS0).fs = 0 := by
  exact ⟨rfl, rfl, rfl, by decide, by decide⟩

end Yate

namespace Yate

/-- spec6Defaults lists the default key/value pairs the specification's
section 6 table promises in a freshly created config file. -/
def spec6Defaults : List (Str × Str) :=
  [((("Radio.Band").toList), (("GSM900").toList)),
   ((("Radio.C0").toList), (("62").toList)),
   ((("Radio.MaxTxPower").toList), (("20").toList)),
   ((("Radio.CountryCode").toList), (("645").toList)),
   ((("Radio.NetworkCode").toList), (("01").toList)),
   ((("Radio.LAC").toList), (("4101").toList)),
   ((("Radio.CellID").toList), (("101").toList)),
   ((("TLS.Enabled").toList), (("yes").toList)),
   ((("AccessControl").toList), (("admin,root").toList)),
   ((("FailedLoginAttempts").toList), (("3").toList)),
   ((("LoginBanTime").toList), (("300").toList))]

/-- C5: on a fresh install (no config directory, no config file, no
certificate), initialization creates exactly the four directories with
modes 750, 700, 750 and 775, writes the rendered default config file
whose parsed content contains Radio.Band GSM900 and the other section-6
defaults, creates the certificate file, and restricts the private key
file to mode 600. -/
theorem C5_fresh_install :
    ∀ (t u h : Str) (kb cb : List Str) (fs : FS),
    dirExists fs CONFIG_DIR = false →
    fileExists fs CONFIG_FILE = false →
    fileExists fs CERT_FILE = false →
    ((load_or_create_config t u h kb cb fs).1.dirs
        = fs.dirs ++ [(CONFIG_DIR, 0o750), (CERT_DIR, 0o700),
            (BACKUP_DIR, 0o750), (LOG_DIR, 0o775)])
  ∧ getFile (load_or_create_config t u h kb cb fs).1 CONFIG_FILE
      = some (default_config t u h)
  ∧ (∀ kv ∈ spec6Defaults,
      lookupA (parse_config (default_config t u h)) kv.1 = some kv.2)
  ∧ fileExists (load_or_create_config t u h kb cb fs).1 CERT_FILE = true
  ∧ fileMode (load_or_create_config t u h kb cb fs).1 KEY_FILE
      = some 0o600 := by
  intro t u h kb cb fs hd hc hcert
  have hc1 : fileExists (mkdir (mkdir (mkdir (mkdir fs CONFIG_DIR 0o750)
      CERT_DIR 0o700) BACKUP_DIR 0o750) LOG_DIR 0o775) CONFIG_FILE
      = false := hc
  have hM : load_or_create_config t u h kb cb fs
      = (create_default_config t u h kb cb
          (mkdir (mkdir (mkdir (mkdir fs CONFIG_DIR 0o750) CERT_DIR 0o700)
            BACKUP_DIR 0o750) LOG_DIR 0o775), []) := by
    simp [load_or_create_config, hd, hc1]
  have hcert1 : fileExists (mkdir (mkdir (mkdir (mkdir fs CONFIG_DIR 0o750)
      CERT_DIR 0o700) BACKUP_DIR 0o750) LOG_DIR 0o775) CERT_FILE
      = false := hcert
  have hcert2 : fileExists (writeFile (mkdir (mkdir (mkdir
      (mkdir fs CONFIG_DIR 0o750) CERT_DIR 0o700) BACKUP_DIR 0o750)
      LOG_DIR 0o775) CONFIG_FILE (default_config t u h)) CERT_FILE
      = false := by
    rw [fileExists_writeFile_other _ _ _ _
      (show CERT_FILE ≠ CONFIG_FILE by decide)]
    exact hcert1
  have hcd : create_default_config t u h kb cb
      (mkdir (mkdir (mkdir (mkdir fs CONFIG_DIR 0o750) CERT_DIR 0o700)
        BACKUP_DIR 0o750) LOG_DIR 0o775)
      = chmodFile (writeFile (writeFile (writeFile
          (mkdir (mkdir (mkdir (mkdir fs CONFIG_DIR 0o750) CERT_DIR 0o700)
            BACKUP_DIR 0o750) LOG_DIR 0o775)
          CONFIG_FILE (default_config t u h)) KEY_FILE kb)
          CERT_FILE cb) KEY_FILE 0o600 := by
    simp [create_default_config, generate_self_signed_cert, hcert2]
  rw [hM]
  refine ⟨?_, ?_, ?_, ?_, ?_⟩
  · rw [hcd]
    simp [chmodFile, writeFile, mkdir, List.append_assoc]
  · rw [hcd, getFile_chmod]
    rw [getFile_writeFile_other _ _ _ _
      (show CONFIG_FILE ≠ CERT_FILE by decide)]
    rw [getFile_writeFile_other _ _ _ _
      (show CONFIG_FILE ≠ KEY_FILE by decide)]
    exact getFile_writeFile_self _ _ _
  · rw [parse_default t u h]
    decide
  · rw [hcd, fileExists_chmod]
    exact fileExists_writeFile_self _ _ _
  · rw [hcd]
    exact fileMode_chmod_self _ _ _

/-- Witness for C5: the fresh-install theorem applied to the empty
filesystem with empty placeholder inputs. -/
theorem C5_fresh_install_witness :
    dirExists fsEmpty CONFIG_DIR = false
  ∧ fileExists fsEmpty CONFIG_FILE = false
  ∧ fileExists fsEmpty CERT_FILE = false
  ∧ (((load_or_create_config [] [] [] [] [] fsEmpty).1.dirs
        = fsEmpty.dirs ++ [(CONFIG_DIR, 0o750), (CERT_DIR, 0o700),
            (BACKUP_DIR, 0o750), (LOG_DIR, 0o775)])
    ∧ getFile (load_or_create_config [] [] [] [] [] fsEmpty).1 CONFIG_FILE
        = some (default_config [] [] [])
    ∧ (∀ kv ∈ spec6Defaults,
        lookupA (parse_config (default_config [] [] [])) kv.1 = some kv.2)
    ∧ fileExists (load_or_create_config [] [] [] [] [] fsEmpty).1 CERT_FILE
        = true
    ∧ fileMode (load_or_create_config [] [] [] [] [] fsEmpty).1 KEY_FILE
        = some 0o600) :=
  ⟨by decide, by decide, by decide,
    C5_fresh_install [] [] [] [] [] fsEmpty (by decide) (by decide)
      (by decide)⟩

end Yate

namespace Yate

-- The first stage of load_or_create_config only ever adds directories:
-- whichever branch the directory check takes, files and chmod modes are
-- those of the input filesystem.

theorem loc_fst_stage (t u h : Str) (kb cb : List Str) (fs : FS) :
    ∃ fs1 : FS, fs1.files = fs.files ∧ fs1.fmodes = fs.fmodes ∧
      (load_or_create_config t u h kb cb fs).1
        = (if fileExists fs1 CONFIG_FILE then fs1
           else create_default_config t u h kb cb fs1) := by
  by_cases hd : dirExists fs CONFIG_DIR
  · refine ⟨fs, rfl, rfl, ?_⟩
    by_cases hc : fileExists fs CONFIG_FILE <;>
      simp [load_or_create_config, hd, hc]
  · refine ⟨mkdir (mkdir (mkdir (mkdir fs CONFIG_DIR 0o750) CERT_DIR 0o700)
      BACKUP_DIR 0o750) LOG_DIR 0o775, rfl, rfl, ?_⟩
    by_cases hc : fileExists (mkdir (mkdir (mkdir
        (mkdir fs CONFIG_DIR 0o750) CERT_DIR 0o700) BACKUP_DIR 0o750)
        LOG_DIR 0o775) CONFIG_FILE <;>
      simp [load_or_create_config, hd, hc]

/-- C6 counterexample: in a state where the certificate file exists but
the config file is absent, initialization does perform a default-config
write (it recreates the config file), contradicting the claim that no
additional default-config write happens whenever the certificate already
exists. -/
theorem C6_counterexample :
    fileExists fsCertOnly CERT_FILE = true
  ∧ fileExists fsCertOnly CONFIG_FILE = false
  ∧ getFile (load_or_create_config tsX tsX tsX [] [] fsCertOnly).1
      CONFIG_FILE = some (default_config tsX tsX tsX) := by
  exact ⟨by decide, by decide, by decide⟩

/-- C6 (amended): provisioning is idempotent relative to the config file:
whenever the config file exists, initialization changes no file and no
file mode (so no TLS material and no default-config write); and TLS
material is created by an initialization iff the config file and the
certificate file are both absent. -/
theorem C6_amended_idempotent :
    ∀ (fs : FS) (t u h : Str) (kb cb : List Str),
    (fileExists fs CONFIG_FILE = true →
      (load_or_create_config t u h kb cb fs).1.files = fs.files
      ∧ (load_or_create_config t u h kb cb fs).1.fmodes = fs.fmodes)
  ∧ ((fileExists (load_or_create_config t u h kb cb fs).1 CERT_FILE
        && !fileExists fs CERT_FILE)
      = (!fileExists fs CONFIG_FILE && !fileExists fs CERT_FILE)) := by
  intro fs t u h kb cb
  obtain ⟨fs1, hfi, hfm, heq⟩ := loc_fst_stage t u h kb cb fs
  have hc1 : fileExists fs1 CONFIG_FILE = fileExists fs CONFIG_FILE := by
    simp [fileExists, hfi]
  have hce1 : fileExists fs1 CERT_FILE = fileExists fs CERT_FILE := by
    simp [fileExists, hfi]
  by_cases hc : fileExists fs CONFIG_FILE
  · rw [hc] at hc1
    rw [heq, if_pos hc1]
    refine ⟨fun _ => ⟨hfi, hfm⟩, ?_⟩
    rw [hce1, hc]
    cases hcert : fileExists fs CERT_FILE <;> simp
  · have hcf : fileExists fs CONFIG_FILE = false := by
      simpa using hc
    rw [hcf] at hc1
    rw [heq, if_neg (by simp [hc1])]
    have hce2 : fileExists (writeFile fs1 CONFIG_FILE
        (default_config t u h)) CERT_FILE = fileExists fs CERT_FILE := by
      rw [fileExists_writeFile_other _ _ _ _
        (show CERT_FILE ≠ CONFIG_FILE by decide)]
      exact hce1
    constructor
    · intro hcontra
      exact absurd hcontra (by simp [hcf])
    · by_cases hcert : fileExists fs CERT_FILE
      · rw [show create_default_config t u h kb cb fs1
            = writeFile fs1 CONFIG_FILE (default_config t u h) from by
          simp [create_default_config, generate_self_signed_cert,
            hce2, hcert]]
        rw [hce2, hcert, hcf]
        simp
      · have hcertf : fileExists fs CERT_FILE = false := by
          simpa using hcert
        rw [show create_default_config t u h kb cb fs1
            = chmodFile (writeFile (writeFile (writeFile fs1 CONFIG_FILE
                (default_config t u h)) KEY_FILE kb) CERT_FILE cb)
                KEY_FILE 0o600 from by
          simp [create_default_config, generate_self_signed_cert,
            hce2, hcertf]]
        rw [fileExists_chmod, fileExists_writeFile_self, hcertf, hcf]
        simp

/-- Witness for C6: the amended idempotence applied to the provisioned
concrete filesystem fsWithCfg. -/
theorem C6_amended_idempotent_witness :
    fileExists fsWithCfg CONFIG_FILE = true
  ∧ ((load_or_create_config tsX tsX tsX [] [] fsWithCfg).1.files
        = fsWithCfg.files
      ∧ (load_or_create_config tsX tsX tsX [] [] fsWithCfg).1.fmodes
        = fsWithCfg.fmodes)
  ∧ ((fileExists (load_or_create_config tsX tsX tsX [] [] fsWithCfg).1
        CERT_FILE && !fileExists fsWithCfg CERT_FILE)
      = (!fileExists fsWithCfg CONFIG_FILE
          && !fileExists fsWithCfg CERT_FILE)) :=
  ⟨by decide,
    (C6_amended_idempotent fsWithCfg tsX tsX tsX [] []).1 (by decide),
    (C6_amended_idempotent fsWithCfg tsX tsX tsX [] []).2⟩

/-- C8 counterexample: a run with effective uid 1000 prints the
user-facing error and leaves the filesystem untouched, but the process
then falls off the end of the script and exits with status zero, not the
non-zero status the claim requires. -/
theorem C8_counterexample :
    pymain 1000 [] [] [] [] [] fsEmpty = (0, [ROOT_ERR], fsEmpty)
  ∧ (pymain 1000 [] [] [] [] [] fsEmpty).1 = 0 := by
  exact ⟨rfl, rfl⟩

/-- C8 (amended): for every run without root privilege, the process
prints the user-facing error, performs no filesystem mutation, and exits
immediately, but with exit status zero (the source merely returns from
main instead of calling sys.exit with a non-zero code). -/
theorem C8_amended_exit_zero :
    ∀ (euid : Nat) (t u h : Str) (kb cb : List Str) (fs : FS),
    euid ≠ 0 →
    pymain euid t u h kb cb fs = (0, [ROOT_ERR], fs) := by
  intro euid t u h kb cb fs he
  simp [pymain, he]

/-- Witness for C8: the amended statement applied to effective uid 7. -/
theorem C8_amended_exit_zero_witness :
    (7 : Nat) ≠ 0
  ∧ pymain 7 [] [] [] [] [] fsEmpty = (0, [ROOT_ERR], fsEmpty) :=
  ⟨by decide, C8_amended_exit_zero 7 [] [] [] [] [] fsEmpty (by decide)⟩

-- One dashboard step never moves gsm_status away from stopped.

theorem dash_step_stopped (s : DashState) (e : DashEvent)
    (h : s.gsm_status = ("stopped").toList) :
    (dash_step s e).gsm_status = ("stopped").toList := by
  cases e <;>
    simp [dash_step, action_save, action_restart, action_backup,
      action_monitor, update_system_metrics, on_button_pressed_stop, h]

theorem foldl_dash_stopped (events : List DashEvent) :
    ∀ s : DashState, s.gsm_status = ("stopped").toList →
    (List.foldl dash_step s events).gsm_status = ("stopped").toList := by
  induction events with
  | nil => intro s h; exact h
  | cons e es ih =>
    intro s h
    rw [List.foldl_cons]
    exact ih _ (dash_step_stopped s e h)

/-- C10: in every reachable dashboard state (initial state plus any
sequence of button presses, key actions and metric ticks), gsm_status is
the string stopped: its initial value is stopped and the only handler
writing it (the Emergency Stop button) writes stopped, so it is never
running and never error. -/
theorem C10_status_always_stopped :
    ∀ (fs : FS) (cfg : ConfigMap) (events : List DashEvent),
    (dash_run fs cfg events).gsm_status = ("stopped").toList
  ∧ (dash_run fs cfg events).gsm_status ≠ ("running").toList
  ∧ (dash_run fs cfg events).gsm_status ≠ ("error").toList := by
  intro fs cfg events
  have h : (dash_run fs cfg events).gsm_status = ("stopped").toList :=
    foldl_dash_stopped events (initDashState fs cfg) rfl
  refine ⟨h, ?_, ?_⟩
  · rw [h]; decide
  · rw [h]; decide

end Yate
